import Mathlib

/-!
Shallow embedding of the sanitizer policy-resolution and variant-splitting
engine of `cc/sanitize.go` (Android Soong, pixeldust fork), together with
proofs checking the natural-language specification against it.

Conventions of the embedding:
* Go `*bool` fields are `Option Bool` (`nil` is `none`).
* `proptools.Bool(p)` is `pBool p` (true exactly for `some true`).
* Go string slices are `List String`.
* Go maps are represented by their insertion history (Go map iteration order
  is irrelevant here: the code only reads maps through `SortedStringKeys`).
* Module-scoped errors reported through `ctx.ModuleErrorf` are accumulated in
  a `List String` returned alongside the transformed state.
-/

namespace Sanitize

/-- SanitizerType from cc/sanitize.go; `cfi` is deliberately last, as in the
source enumeration. -/
inductive SanitizerType where
  | Asan
  | Hwasan
  | tsan
  | intOverflow
  | scs
  | Fuzzer
  | Memtag_heap
  | Memtag_stack
  | cfi
deriving DecidableEq, Repr

open SanitizerType

/-- variationName from cc/sanitize.go: name of the sanitizer variation. -/
def SanitizerType.variationName : SanitizerType → String
  | Asan => "asan"
  | Hwasan => "hwasan"
  | tsan => "tsan"
  | intOverflow => "intOverflow"
  | cfi => "cfi"
  | scs => "scs"
  | Memtag_heap => "memtag_heap"
  | Memtag_stack => "memtag_stack"
  | Fuzzer => "fuzzer"

/-- name from cc/sanitize.go: the sanitizer names used in SANITIZE_TARGET/HOST. -/
def SanitizerType.sanitizerName : SanitizerType → String
  | Asan => "address"
  | Hwasan => "hwaddress"
  | Memtag_heap => "memtag_heap"
  | Memtag_stack => "memtag_stack"
  | tsan => "thread"
  | intOverflow => "integer_overflow"
  | cfi => "cfi"
  | scs => "shadow-call-stack"
  | Fuzzer => "fuzzer"

/-- incompatibleWithCfi from cc/sanitize.go: true if a sanitizer is
incompatible with CFI. -/
def SanitizerType.incompatibleWithCfi (t : SanitizerType) : Bool :=
  t = Asan ∨ t = Fuzzer ∨ t = Hwasan

/-- proptools.Bool on a `*bool`: true exactly when the pointer is non-nil and
points at true. -/
def pBool : Option Bool → Bool
  | some true => true
  | _ => false

/-- Diag sub-struct of SanitizeUserProps from cc/sanitize.go. -/
structure DiagProps where
  Undefined : Option Bool := none
  Cfi : Option Bool := none
  Integer_overflow : Option Bool := none
  Memtag_heap : Option Bool := none
  Misc_undefined : List String := []
  No_recover : List String := []
deriving DecidableEq, Repr

/-- SanitizeUserProps from cc/sanitize.go (the `Config` sub-struct only holds
`Cfi_assembly_support`, used by flag synthesis). -/
structure SanitizeUserProps where
  Never : Option Bool := none
  Address : Option Bool := none
  Thread : Option Bool := none
  Hwaddress : Option Bool := none
  All_undefined : Option Bool := none
  Undefined : Option Bool := none
  Misc_undefined : List String := []
  Fuzzer : Option Bool := none
  Safestack : Option Bool := none
  Cfi : Option Bool := none
  Integer_overflow : Option Bool := none
  Scudo : Option Bool := none
  Scs : Option Bool := none
  Memtag_heap : Option Bool := none
  Memtag_stack : Option Bool := none
  Writeonly : Option Bool := none
  Diag : DiagProps := {}
  Cfi_assembly_support : Option Bool := none
  Recover : List String := []
  Blocklist : Option String := none
deriving DecidableEq, Repr

/-- SanitizeProperties from cc/sanitize.go (the mutated bookkeeping fields
alongside the user props). -/
structure SanitizeProperties where
  Sanitize : SanitizeUserProps := {}
  SanitizerEnabled : Bool := false
  MinimalRuntimeDep : Bool := false
  BuiltinsDep : Bool := false
  UbsanRuntimeDep : Bool := false
  InSanitizerDir : Bool := false
  Sanitizers : List String := []
  DiagSanitizers : List String := []
deriving DecidableEq, Repr

/-- getSanitizerBoolPtr from cc/sanitize.go: the per-type bool pointer stored
in the properties. -/
def getSanitizerBoolPtr (s : SanitizeProperties) : SanitizerType → Option Bool
  | Asan => s.Sanitize.Address
  | Hwasan => s.Sanitize.Hwaddress
  | tsan => s.Sanitize.Thread
  | intOverflow => s.Sanitize.Integer_overflow
  | cfi => s.Sanitize.Cfi
  | scs => s.Sanitize.Scs
  | Memtag_heap => s.Sanitize.Memtag_heap
  | Memtag_stack => s.Sanitize.Memtag_stack
  | Fuzzer => s.Sanitize.Fuzzer

/-- SetSanitizer from cc/sanitize.go: stores `some true` when enabling and
`none` when disabling, and raises SanitizerEnabled only when enabling. -/
def SetSanitizer (s : SanitizeProperties) (t : SanitizerType) (b : Bool) :
    SanitizeProperties :=
  let bPtr : Option Bool := if b then some true else none
  let s :=
    match t with
    | Asan => { s with Sanitize := { s.Sanitize with Address := bPtr } }
    | Hwasan => { s with Sanitize := { s.Sanitize with Hwaddress := bPtr } }
    | tsan => { s with Sanitize := { s.Sanitize with Thread := bPtr } }
    | intOverflow =>
        { s with Sanitize := { s.Sanitize with Integer_overflow := bPtr } }
    | cfi => { s with Sanitize := { s.Sanitize with Cfi := bPtr } }
    | scs => { s with Sanitize := { s.Sanitize with Scs := bPtr } }
    | Memtag_heap =>
        { s with Sanitize := { s.Sanitize with Memtag_heap := bPtr } }
    | Memtag_stack =>
        { s with Sanitize := { s.Sanitize with Memtag_stack := bPtr } }
    | Fuzzer => { s with Sanitize := { s.Sanitize with Fuzzer := bPtr } }
  if b then { s with SanitizerEnabled := true } else s

/-- isSanitizerExplicitlyDisabled from cc/sanitize.go: the pointer is non-nil
and points at false. -/
def isSanitizerExplicitlyDisabled (s : SanitizeProperties)
    (t : SanitizerType) : Bool :=
  match getSanitizerBoolPtr s t with
  | some b => !b
  | none => false

/-- isSanitizerEnabled from cc/sanitize.go: the pointer is non-nil and points
at true. -/
def isSanitizerEnabled (s : SanitizeProperties) (t : SanitizerType) : Bool :=
  pBool (getSanitizerBoolPtr s t)

/-- enableMinimalRuntime from cc/sanitize.go, verbatim condition structure. -/
def enableMinimalRuntime (s : SanitizeProperties) : Bool :=
  if !pBool s.Sanitize.Address &&
      !pBool s.Sanitize.Hwaddress &&
      !pBool s.Sanitize.Fuzzer &&
      (pBool s.Sanitize.Integer_overflow ||
        decide (s.Sanitize.Misc_undefined.length > 0) ||
        pBool s.Sanitize.Undefined ||
        pBool s.Sanitize.All_undefined) &&
      !(pBool s.Sanitize.Diag.Integer_overflow ||
        pBool s.Sanitize.Diag.Cfi ||
        pBool s.Sanitize.Diag.Undefined ||
        decide (s.Sanitize.Diag.Misc_undefined.length > 0)) then
    true
  else
    false

/-- enableUbsanRuntime from cc/sanitize.go. -/
def enableUbsanRuntime (s : SanitizeProperties) : Bool :=
  pBool s.Sanitize.Diag.Integer_overflow ||
    pBool s.Sanitize.Diag.Undefined ||
    decide (s.Sanitize.Diag.Misc_undefined.length > 0)

/-- removeFromList helper from cc/util.go (not under src/): reports whether
the name occurs in the list and returns the list with its occurrences
removed. Only the membership component and removal of exact matches are
relied on by the code under verification. -/
def removeFromList (name : String) (l : List String) : Bool × List String :=
  (l.contains name, l.filter (fun x => x != name))

/-- Operating-system classification visible to begin: `osLinux` mirrors
`ctx.Os().Linux()` (true for Linux-kernel based targets). -/
inductive OsType where
  | Android
  | Linux
  | Darwin
  | Windows
deriving DecidableEq, Repr

/-- Linux() on an OsType: Android and Linux are Linux-kernel based. -/
def OsType.osLinux : OsType → Bool
  | .Android => true
  | .Linux => true
  | _ => false

/-- Architecture types referenced by begin. -/
inductive ArchType where
  | Arm
  | Arm64
  | X86
  | X86_64
deriving DecidableEq, Repr

/-- Name of an ArchType as used in SANITIZE_TARGET_ARCH matching. -/
def ArchType.archName : ArchType → String
  | .Arm => "arm"
  | .Arm64 => "arm64"
  | .X86 => "x86"
  | .X86_64 => "x86_64"

/-- Facts the begin pass reads from its BaseModuleContext and Config. Global
path-based predicates are pre-applied to this module's directory, which is
fixed for one run of begin. -/
structure BeginContext where
  useSdk : Bool := false
  testBinary : Bool := false
  host : Bool := false
  os : OsType := .Android
  arch : ArchType := .Arm64
  bionic : Bool := true
  musl : Bool := false
  is64Bit : Bool := true
  staticLinked : Bool := false
  staticBinary : Bool := false
  isVndk : Bool := false
  useVndk : Bool := false
  inRamdisk : Bool := false
  inVendorRamdisk : Bool := false
  inRecovery : Bool := false
  moduleDirBionicLibc : Bool := false
  sanitizeHost : List String := []
  sanitizeDevice : List String := []
  sanitizeDeviceDiag : List String := []
  sanitizeDeviceArch : List String := []
  cfiDisabledForPath : Bool := false
  cfiEnabledForPath : Bool := false
  intOverflowDisabledForPath : Bool := false
  intOverflowEnabledForPath : Bool := false
  boundEnabledForPath : Bool := false
  boundDisabledForPath : Bool := false
  memtagHeapDisabledForPath : Bool := false
  memtagHeapSyncEnabledForPath : Bool := false
  memtagHeapAsyncEnabledForPath : Bool := false
  enableCFI : Bool := false
  disableScudo : Bool := false
deriving Repr

/-- Module-scoped errors raised through ctx.ModuleErrorf in begin. -/
inductive BeginError where
  | unknownGlobalOption (name : String)
  | writeonlyRequiresAddress
  | unknownGlobalDiagOption (name : String)
deriving DecidableEq, Repr

/-- State threaded through the global-sanitizer-list block of begin: the
remaining global list, the remaining global diag list, the user props, and
the errors raised so far. -/
structure GState where
  gs : List String
  gsd : List String
  s : SanitizeUserProps
  errs : List BeginError
deriving Repr

/-- Global-list entry "undefined" seeds All_undefined. -/
def gsUndefined (st : GState) : GState :=
  let p := removeFromList "undefined" st.gs
  let s := if p.1 ∧ st.s.All_undefined = none then
      { st.s with All_undefined := some true } else st.s
  { st with gs := p.2, s := s }

/-- Global-list entry "default-ub" seeds Undefined. -/
def gsDefaultUb (st : GState) : GState :=
  let p := removeFromList "default-ub" st.gs
  let s := if p.1 ∧ st.s.Undefined = none then
      { st.s with Undefined := some true } else st.s
  { st with gs := p.2, s := s }

/-- Global-list entry "address" seeds Address. -/
def gsAddress (st : GState) : GState :=
  let p := removeFromList "address" st.gs
  let s := if p.1 ∧ st.s.Address = none then
      { st.s with Address := some true } else st.s
  { st with gs := p.2, s := s }

/-- Global-list entry "thread" seeds Thread. -/
def gsThread (st : GState) : GState :=
  let p := removeFromList "thread" st.gs
  let s := if p.1 ∧ st.s.Thread = none then
      { st.s with Thread := some true } else st.s
  { st with gs := p.2, s := s }

/-- Global-list entry "fuzzer" seeds Fuzzer. -/
def gsFuzzer (st : GState) : GState :=
  let p := removeFromList "fuzzer" st.gs
  let s := if p.1 ∧ st.s.Fuzzer = none then
      { st.s with Fuzzer := some true } else st.s
  { st with gs := p.2, s := s }

/-- Global-list entry "safe-stack" seeds Safestack. -/
def gsSafestack (st : GState) : GState :=
  let p := removeFromList "safe-stack" st.gs
  let s := if p.1 ∧ st.s.Safestack = none then
      { st.s with Safestack := some true } else st.s
  { st with gs := p.2, s := s }

/-- Global-list entry "cfi" seeds Cfi unless the path is CFI-disabled. -/
def gsCfi (ctx : BeginContext) (st : GState) : GState :=
  let p := removeFromList "cfi" st.gs
  let s := if p.1 ∧ st.s.Cfi = none then
      (if ¬ctx.cfiDisabledForPath then { st.s with Cfi := some true } else st.s)
    else st.s
  { st with gs := p.2, s := s }

/-- Global-list entry "integer_overflow" seeds Integer_overflow; global
integer_overflow builds do not support static libraries. -/
def gsIntOverflow (ctx : BeginContext) (st : GState) : GState :=
  let p := removeFromList "integer_overflow" st.gs
  let s := if p.1 ∧ st.s.Integer_overflow = none then
      (if ¬ctx.intOverflowDisabledForPath ∧ ¬ctx.staticLinked then
        { st.s with Integer_overflow := some true } else st.s)
    else st.s
  { st with gs := p.2, s := s }

/-- Global-list entry "scudo" seeds Scudo. -/
def gsScudo (st : GState) : GState :=
  let p := removeFromList "scudo" st.gs
  let s := if p.1 ∧ st.s.Scudo = none then
      { st.s with Scudo := some true } else st.s
  { st with gs := p.2, s := s }

/-- Global-list entry "hwaddress" seeds Hwaddress. -/
def gsHwaddress (st : GState) : GState :=
  let p := removeFromList "hwaddress" st.gs
  let s := if p.1 ∧ st.s.Hwaddress = none then
      { st.s with Hwaddress := some true } else st.s
  { st with gs := p.2, s := s }

/-- Global-list entry "writeonly": errors when neither Address nor Hwaddress
is set at this point, then seeds Writeonly. -/
def gsWriteonly (st : GState) : GState :=
  let p := removeFromList "writeonly" st.gs
  if p.1 ∧ st.s.Writeonly = none then
    let errs := if st.s.Address = none ∧ st.s.Hwaddress = none then
        st.errs ++ [BeginError.writeonlyRequiresAddress] else st.errs
    { st with gs := p.2, s := { st.s with Writeonly := some true }, errs := errs }
  else
    { st with gs := p.2 }

/-- Global-list entry "memtag_heap" seeds Memtag_heap unless the path is
memtag-disabled. -/
def gsMemtagHeap (ctx : BeginContext) (st : GState) : GState :=
  let p := removeFromList "memtag_heap" st.gs
  let s := if p.1 ∧ st.s.Memtag_heap = none then
      (if ¬ctx.memtagHeapDisabledForPath then
        { st.s with Memtag_heap := some true } else st.s)
    else st.s
  { st with gs := p.2, s := s }

/-- Global-list entry "memtag_stack" seeds Memtag_stack. -/
def gsMemtagStack (st : GState) : GState :=
  let p := removeFromList "memtag_stack" st.gs
  let s := if p.1 ∧ st.s.Memtag_stack = none then
      { st.s with Memtag_stack := some true } else st.s
  { st with gs := p.2, s := s }

/-- Any global-list entry left over is an unknown option error. -/
def gsUnknown (st : GState) : GState :=
  match st.gs with
  | [] => st
  | x :: _ => { st with errs := st.errs ++ [BeginError.unknownGlobalOption x] }

/-- Global diag entry "integer_overflow"; global integer_overflow builds do
not support static library diagnostics. -/
def gsdIntOverflow (ctx : BeginContext) (st : GState) : GState :=
  let p := removeFromList "integer_overflow" st.gsd
  let s := if p.1 ∧ st.s.Diag.Integer_overflow = none ∧
      pBool st.s.Integer_overflow ∧ ¬ctx.staticLinked then
      { st.s with Diag := { st.s.Diag with Integer_overflow := some true } }
    else st.s
  { st with gsd := p.2, s := s }

/-- Global diag entry "cfi". -/
def gsdCfi (st : GState) : GState :=
  let p := removeFromList "cfi" st.gsd
  let s := if p.1 ∧ st.s.Diag.Cfi = none ∧ pBool st.s.Cfi then
      { st.s with Diag := { st.s.Diag with Cfi := some true } }
    else st.s
  { st with gsd := p.2, s := s }

/-- Global diag entry "memtag_heap". -/
def gsdMemtagHeap (st : GState) : GState :=
  let p := removeFromList "memtag_heap" st.gsd
  let s := if p.1 ∧ st.s.Diag.Memtag_heap = none ∧ pBool st.s.Memtag_heap then
      { st.s with Diag := { st.s.Diag with Memtag_heap := some true } }
    else st.s
  { st with gsd := p.2, s := s }

/-- Any global diag entry left over is an unknown diagnostics option error. -/
def gsdUnknown (st : GState) : GState :=
  match st.gsd with
  | [] => st
  | x :: _ => { st with errs := st.errs ++ [BeginError.unknownGlobalDiagOption x] }

/-- The whole global-sanitizer-list block of begin (lines under
`if len(globalSanitizers) > 0`), in source order. -/
def applyGlobals (ctx : BeginContext) (st : GState) : GState :=
  st |> gsUndefined |> gsDefaultUb |> gsAddress |> gsThread |> gsFuzzer
    |> gsSafestack |> gsCfi ctx |> gsIntOverflow ctx |> gsScudo
    |> gsHwaddress |> gsWriteonly |> gsMemtagHeap ctx |> gsMemtagStack
    |> gsUnknown |> gsdIntOverflow ctx |> gsdCfi |> gsdMemtagHeap
    |> gsdUnknown

/-- cc_test targets default Memtag_heap (and its diag form) to enabled. -/
def stepTestBinary (ctx : BeginContext) (s : SanitizeUserProps) :
    SanitizeUserProps :=
  if ctx.testBinary then
    let s := if s.Memtag_heap = none then { s with Memtag_heap := some true }
      else s
    if s.Diag.Memtag_heap = none then
      { s with Diag := { s.Diag with Memtag_heap := some true } }
    else s
  else s

/-- Memtag enabled for components in the include paths (Aarch64 only). -/
def stepMemtagPath (ctx : BeginContext) (s : SanitizeUserProps) :
    SanitizeUserProps :=
  if ctx.arch = ArchType.Arm64 ∧ ctx.bionic then
    if ctx.memtagHeapSyncEnabledForPath then
      let s := if s.Memtag_heap = none then { s with Memtag_heap := some true }
        else s
      if s.Diag.Memtag_heap = none then
        { s with Diag := { s.Diag with Memtag_heap := some true } }
      else s
    else if ctx.memtagHeapAsyncEnabledForPath then
      if s.Memtag_heap = none then { s with Memtag_heap := some true } else s
    else s
  else s

/-- Integer overflow forced on by path (Arm64 only). -/
def stepIntOvfPath (ctx : BeginContext) (s : SanitizeUserProps) :
    SanitizeUserProps :=
  if s.Integer_overflow = none ∧ ctx.intOverflowEnabledForPath ∧
      ctx.arch = ArchType.Arm64 then
    { s with Integer_overflow := some true }
  else s

/-- Bounds sanitizer forced on by path (Arm64 only). -/
def stepBoundsEnable (ctx : BeginContext) (s : SanitizeUserProps) :
    SanitizeUserProps :=
  if ctx.boundEnabledForPath ∧ ctx.arch = ArchType.Arm64 then
    { s with Misc_undefined := s.Misc_undefined ++ ["bounds"] }
  else s

/-- Bounds sanitizer removed by path (Arm64 only); removes the first
occurrence, mirroring the indexList splice in the source. -/
def stepBoundsDisable (ctx : BeginContext) (s : SanitizeUserProps) :
    SanitizeUserProps :=
  if ctx.boundDisabledForPath ∧ ctx.arch = ArchType.Arm64 then
    { s with Misc_undefined := s.Misc_undefined.erase "bounds" }
  else s

/-- Integer overflow disabled by exclude path (Arm64 only). -/
def stepIntOvfDisable (ctx : BeginContext) (s : SanitizeUserProps) :
    SanitizeUserProps :=
  if ctx.intOverflowDisabledForPath ∧ ctx.arch = ArchType.Arm64 then
    { s with
      Misc_undefined :=
        (s.Misc_undefined.erase "signed-integer-overflow").erase
          "unsigned-integer-overflow",
      Integer_overflow := none }
  else s

/-- CFI enabled for non-host components in the include paths. -/
def stepCfiPath (ctx : BeginContext) (s : SanitizeUserProps) :
    SanitizeUserProps :=
  if s.Cfi = none ∧ ctx.cfiEnabledForPath ∧ ¬ctx.host then
    let s := { s with Cfi := some true }
    if "cfi" ∈ ctx.sanitizeDeviceDiag then
      { s with Diag := { s.Diag with Cfi := some true } }
    else s
  else s

/-- CFI disabled for components in the exclude path (Arm64 only). -/
def stepCfiDisabledPath (ctx : BeginContext) (s : SanitizeUserProps) :
    SanitizeUserProps :=
  if ctx.cfiDisabledForPath ∧ ctx.arch = ArchType.Arm64 then
    let s := { s with Cfi := none }
    if "cfi" ∈ ctx.sanitizeDeviceDiag then
      { s with Diag := { s.Diag with Cfi := none } }
    else s
  else s

/-- CFI cleared when CFI is not enabled at all in the product config. -/
def stepEnableCfi (ctx : BeginContext) (s : SanitizeUserProps) :
    SanitizeUserProps :=
  if ¬ctx.enableCFI then
    { s with Cfi := none, Diag := { s.Diag with Cfi := none } }
  else s

/-- HWASan needs Arm64 plus Bionic. -/
def stepHwRestrict (ctx : BeginContext) (s : SanitizeUserProps) :
    SanitizeUserProps :=
  if ctx.arch ≠ ArchType.Arm64 ∨ ¬ctx.bionic then
    { s with Hwaddress := none }
  else s

/-- SCS is only implemented on AArch64. -/
def stepScsRestrict (ctx : BeginContext) (s : SanitizeUserProps) :
    SanitizeUserProps :=
  if ctx.arch ≠ ArchType.Arm64 ∨ ¬ctx.bionic then
    { s with Scs := none }
  else s

/-- Memtag modes need Arm64 plus Bionic and are disabled on host. -/
def stepMemtagRestrict (ctx : BeginContext) (s : SanitizeUserProps) :
    SanitizeUserProps :=
  if ctx.arch ≠ ArchType.Arm64 ∨ ¬ctx.bionic ∨ ctx.host then
    { s with Memtag_heap := none, Memtag_stack := none }
  else s

/-- ASan or HWASan being on clears CFI and the memtag modes. -/
def stepAsanWins (s : SanitizeUserProps) : SanitizeUserProps :=
  if pBool s.Address ∨ pBool s.Hwaddress then
    { s with
      Cfi := none, Memtag_heap := none, Memtag_stack := none,
      Diag := { s.Diag with Cfi := none } }
  else s

/-- Sanitizers depending on the UBSan runtime are cleared on non-Linux. -/
def stepNonLinux (ctx : BeginContext) (s : SanitizeUserProps) :
    SanitizeUserProps :=
  if ¬ctx.os.osLinux then
    { s with
      Cfi := none, Misc_undefined := [], Undefined := none,
      All_undefined := none, Integer_overflow := none,
      Diag := { s.Diag with Cfi := none } }
  else s

/-- CFI is disabled for musl. -/
def stepMusl (ctx : BeginContext) (s : SanitizeUserProps) :
    SanitizeUserProps :=
  if ctx.musl then
    { s with Cfi := none, Diag := { s.Diag with Cfi := none } }
  else s

/-- CFI is disabled for VNDK variants (both branches of the source are
identical). -/
def stepVndk (ctx : BeginContext) (s : SanitizeUserProps) :
    SanitizeUserProps :=
  if ctx.isVndk ∧ ctx.useVndk then
    { s with Cfi := none, Diag := { s.Diag with Cfi := none } }
  else s

/-- HWASan cleared in ramdisk/vendor-ramdisk/recovery outside bionic/libc. -/
def stepRamdisk (ctx : BeginContext) (s : SanitizeUserProps) :
    SanitizeUserProps :=
  if (ctx.inRamdisk ∨ ctx.inVendorRamdisk ∨ ctx.inRecovery) ∧
      ¬ctx.moduleDirBionicLibc then
    { s with Hwaddress := none }
  else s

/-- Static binaries clear Address, Fuzzer and Thread. -/
def stepStaticBinary (ctx : BeginContext) (s : SanitizeUserProps) :
    SanitizeUserProps :=
  if ctx.staticBinary then
    { s with Address := none, Fuzzer := none, Thread := none }
  else s

/-- All_undefined subsumes Undefined. -/
def stepAllUndef (s : SanitizeUserProps) : SanitizeUserProps :=
  if pBool s.All_undefined then { s with Undefined := none } else s

/-- TSAN and SafeStack are not supported on 32-bit architectures. -/
def step32Bit (ctx : BeginContext) (s : SanitizeUserProps) :
    SanitizeUserProps :=
  if ¬ctx.is64Bit then { s with Thread := none, Safestack := none } else s

/-- Disjunction of per-mode enablement tested when begin decides
SanitizerEnabled, in the source order of the condition. -/
def anyModeEnabled (s : SanitizeUserProps) : Bool :=
  pBool s.All_undefined || pBool s.Undefined || pBool s.Address ||
    pBool s.Thread || pBool s.Fuzzer || pBool s.Safestack || pBool s.Cfi ||
    pBool s.Integer_overflow || decide (s.Misc_undefined.length > 0) ||
    pBool s.Scudo || pBool s.Hwaddress || pBool s.Scs ||
    pBool s.Memtag_heap || pBool s.Memtag_stack

/-- Condition under which begin sets SanitizerEnabled: not Windows and some
mode enabled at that point of the pass. -/
def sanitizerEnabledCondition (ctx : BeginContext) (s : SanitizeUserProps) :
    Bool :=
  decide (ctx.os ≠ OsType.Windows) && anyModeEnabled s

/-- Scudo is disabled when ASan, TSan or HWASan is on, or globally. -/
def stepScudoDisable (ctx : BeginContext) (s : SanitizeUserProps) :
    SanitizeUserProps :=
  if pBool s.Address ∨ pBool s.Thread ∨ pBool s.Hwaddress ∨
      ctx.disableScudo then
    { s with Scudo := none }
  else s

/-- Hwaddress wins over Address and Thread. -/
def stepHwasanWins (s : SanitizeUserProps) : SanitizeUserProps :=
  if pBool s.Hwaddress then { s with Address := none, Thread := none } else s

/-- Fuzzer clears CFI (LTO incompatibility). -/
def stepFuzzerCfi (s : SanitizeUserProps) : SanitizeUserProps :=
  if pBool s.Fuzzer then { s with Cfi := none } else s

/-- Effective global sanitizer lists (plain, diag) for this module: host
list off Windows for host modules, device lists gated by
SANITIZE_TARGET_ARCH for device modules. -/
def globalLists (ctx : BeginContext) : List String × List String :=
  if ctx.host then
    (if ctx.os ≠ OsType.Windows then ctx.sanitizeHost else [], [])
  else
    if ctx.sanitizeDeviceArch = [] ∨
        ctx.arch.archName ∈ ctx.sanitizeDeviceArch then
      (ctx.sanitizeDevice, ctx.sanitizeDeviceDiag)
    else ([], [])

/-- Lines of begin from the cc_test default through the per-mode
architecture/host eligibility pruning, ending just before the rule that
lets ASan and HWASan win over CFI and memtag. -/
def beginPre (ctx : BeginContext) (s : SanitizeUserProps) :
    SanitizeUserProps × List BeginError :=
  let s := stepTestBinary ctx s
  let gl := globalLists ctx
  let st : GState := ⟨gl.1, gl.2, s, []⟩
  let st := if st.gs.length > 0 then applyGlobals ctx st else st
  let s := st.s |> stepMemtagPath ctx |> stepIntOvfPath ctx
    |> stepBoundsEnable ctx |> stepBoundsDisable ctx |> stepIntOvfDisable ctx
    |> stepCfiPath ctx |> stepCfiDisabledPath ctx |> stepEnableCfi ctx
    |> stepHwRestrict ctx |> stepScsRestrict ctx |> stepMemtagRestrict ctx
  (s, st.errs)

/-- Lines of begin from the ASan/HWASan-wins rule through the 32-bit
pruning. -/
def beginTail (ctx : BeginContext) (s : SanitizeUserProps) :
    SanitizeUserProps :=
  s |> stepAsanWins |> stepNonLinux ctx |> stepMusl ctx |> stepVndk ctx
    |> stepRamdisk ctx |> stepStaticBinary ctx |> stepAllUndef
    |> step32Bit ctx

/-- Lines of begin from the cc_test default through the 32-bit pruning: the
state of the user props just before SanitizerEnabled is computed. -/
def beginPhase1 (ctx : BeginContext) (s : SanitizeUserProps) :
    SanitizeUserProps × List BeginError :=
  let r := beginPre ctx s
  (beginTail ctx r.1, r.2)

/-- The rules of begin that run after SanitizerEnabled is computed. -/
def beginPhase2 (ctx : BeginContext) (s : SanitizeUserProps) :
    SanitizeUserProps :=
  s |> stepScudoDisable ctx |> stepHwasanWins |> stepFuzzerCfi

/-- begin from cc/sanitize.go: NDK opt-out, Never early return, then the two
phases around the SanitizerEnabled computation. Returns the transformed
properties and the module errors raised. -/
def begin' (ctx : BeginContext) (props : SanitizeProperties) :
    SanitizeProperties × List BeginError :=
  let s0 := if ctx.useSdk then { props.Sanitize with Never := some true }
    else props.Sanitize
  if pBool s0.Never then
    ({ props with Sanitize := s0 }, [])
  else
    let r := beginPhase1 ctx s0
    let enabled := props.SanitizerEnabled || sanitizerEnabledCondition ctx r.1
    let out := { props with
                 Sanitize := beginPhase2 ctx r.1,
                 SanitizerEnabled := enabled }
    (out, r.2)

/-- Dependency tags as seen by IsSanitizableDependencyTag: a plain cc
dependencyTag (a struct holding a name, compared by value), a
libraryDependencyTag, or any other tag kind. -/
inductive DependencyTag where
  | depTag (name : String)
  | libraryDepTag
  | otherTag (name : String)
deriving DecidableEq, Repr

/-- Modelled from the spec: the object-reuse dependency tags of the cc
package (their definitions live outside src/; the spec calls these the
"pure object reuse" linkage kinds). They are plain dependencyTag values. -/
def reuseObjTag : DependencyTag := DependencyTag.depTag "reuse objects"

/-- Modelled from the spec: the object-dependency tag of the cc package, the
second object-reuse linkage kind (definition outside src/). -/
def objDepTag : DependencyTag := DependencyTag.depTag "obj"

/-- IsSanitizableDependencyTag from cc/sanitize.go: among plain
dependencyTags exactly the two object tags are sanitizable, every
libraryDependencyTag is sanitizable, and every other kind is not. -/
def IsSanitizableDependencyTag : DependencyTag → Bool
  | DependencyTag.depTag n => n == "reuse objects" || n == "obj"
  | DependencyTag.libraryDepTag => true
  | DependencyTag.otherTag _ => false

/-- Facts about a module implementing PlatformSanitizeable that the split
mutator queries. `snapshotSanEnabled` is true for a sanitizer when the
module is a cc module whose linker is a snapshotSanitizer with that
sanitizer enabled (false whenever the casts fail). The `enabled`,
`explicitlyDisabled` and `supported` functions stand for
IsSanitizerEnabled, IsSanitizerExplicitlyDisabled and SanitizerSupported. -/
structure PlatformSanModule where
  sanitizePropDefined : Bool := true
  sanitizeNever : Bool := false
  enabled : SanitizerType → Bool := fun _ => false
  explicitlyDisabled : SanitizerType → Bool := fun _ => false
  supported : SanitizerType → Bool := fun _ => true
  binary : Bool := false
  staticLinked : Bool := false
  header : Bool := false
  snapshotSanEnabled : SanitizerType → Bool := fun _ => false
  inVendor : Bool := false
  isPrebuilt : Bool := false
  vendorProprietary : Bool := false
  exportedToMake : Bool := false
  moduleName : String := ""

/-- A module as seen through the Go interface casts of the split mutator:
it may implement PlatformSanitizeable, JniSanitizeable, Sanitizeable (apex,
with its config-level sanitizer query pre-applied), or be a plain cc module
whose linker is a snapshot sanitizer. -/
structure ModuleHandle where
  platform : Option PlatformSanModule := none
  jni : Bool := false
  apexEnabled : Option (SanitizerType → Bool) := none
  ccSnapshotEnabled : SanitizerType → Bool := fun _ => false

/-- needsCfiForVendorSnapshot from cc/sanitize.go: a non-proprietary vendor
static library that is not a prebuilt, supports cfi and has sanitize
properties neither absent, opted out nor explicitly cfi-disabled. -/
def needsCfiForVendorSnapshot (c : PlatformSanModule) : Bool :=
  if c.vendorProprietary then false
  else if ¬c.inVendor then false
  else if ¬c.staticLinked then false
  else if c.isPrebuilt then false
  else if ¬c.supported cfi then false
  else c.sanitizePropDefined && !c.sanitizeNever && !c.explicitlyDisabled cfi

/-- PlatformSanitizeable branch of sanitizerSplitMutator.Split. -/
def splitPlatform (t : SanitizerType) (c : PlatformSanModule) : List String :=
  if t = cfi ∧ needsCfiForVendorSnapshot c then
    ["", t.variationName]
  else if ¬c.enabled t then
    [""]
  else if c.binary then
    [t.variationName]
  else if c.staticLinked ∨ c.header then
    ["", t.variationName]
  else
    [t.variationName]

/-- Branches of sanitizerSplitMutator.Split after the PlatformSanitizeable
branch declined: JniSanitizeable, Sanitizeable (apex), snapshot cc module,
then the default base-only variation. -/
def splitRest (t : SanitizerType) (m : ModuleHandle) : List String :=
  if m.jni then [""]
  else
    match m.apexEnabled with
    | some en => if en t then [t.variationName] else [""]
    | none =>
        if m.ccSnapshotEnabled t then ["", t.variationName] else [""]

/-- sanitizerSplitMutator.Split from cc/sanitize.go. -/
def Split (t : SanitizerType) (m : ModuleHandle) : List String :=
  match m.platform with
  | some c => if c.sanitizePropDefined then splitPlatform t c else splitRest t m
  | none => splitRest t m

/-- sanitizerSplitMutator.OutgoingTransition from cc/sanitize.go. The
checker a cc module installs through SanitizableDepTagChecker is
IsSanitizableDependencyTag. -/
def OutgoingTransition (m : ModuleHandle) (tag : DependencyTag)
    (sourceVariation : String) : String :=
  match m.platform with
  | some _ =>
      if ¬IsSanitizableDependencyTag tag then "" else sourceVariation
  | none => if m.jni then "" else sourceVariation

/-- sanitizerSplitMutator.IncomingTransition from cc/sanitize.go. -/
def IncomingTransition (t : SanitizerType) (m : ModuleHandle)
    (incomingVariation : String) : String :=
  match m.platform with
  | some d =>
      if d.snapshotSanEnabled t then incomingVariation
      else if ¬d.sanitizePropDefined ∨ d.sanitizeNever ∨
          d.explicitlyDisabled t ∨ ¬d.supported t then ""
      else if d.binary then
        (if d.enabled t then t.variationName else "")
      else if ¬d.staticLinked ∧ ¬d.header then
        if d.enabled t then t.variationName
        else if t = cfi ∨ t = Hwasan ∨ t = scs ∨ t = Asan then ""
        else incomingVariation
      else incomingVariation
  | none =>
      match m.apexEnabled with
      | some en => if en t then t.variationName else incomingVariation
      | none => ""

/-- Mutable per-module state touched by the PlatformSanitizeable branch of
sanitizerSplitMutator.Mutate: the sanitize properties, the install and Make
visibility flags, and the sanitizer-directory flag. `supported`,
`staticLinked`, `header`, `binary` and `exportedToMake` are the static
module facts the branch queries. -/
structure MutModule where
  sanitizePropDefined : Bool := true
  props : SanitizeProperties := {}
  staticLinked : Bool := false
  header : Bool := false
  binary : Bool := false
  supported : SanitizerType → Bool := fun _ => true
  exportedToMake : Bool := false
  moduleName : String := ""
  preventInstall : Bool := false
  hideFromMake : Bool := false
  inSanitizerDir : Bool := false

/-- Body of the sanitized-variation case of the PlatformSanitizeable branch
of Mutate: enable the sanitizer on the copy, force cfi off on a device when
the sanitizer is cfi-incompatible and cfi is supported, locate asan shared
libraries under the sanitizer directory, and record exported static
libraries for the hwasan/cfi Make export. `sanitizerEnabled` is the value
of IsSanitizerEnabled captured before any mutation, as in the source. -/
def mutateSanitizedBranch (t : SanitizerType) (device : Bool)
    (sanitizerEnabled : Bool) (m : MutModule) : MutModule × Option String :=
  let m := { m with props := SetSanitizer m.props t true }
  let m := if t.incompatibleWithCfi ∧ device ∧ m.supported cfi then
      { m with props := SetSanitizer m.props cfi false }
    else m
  let m := if ¬m.binary ∧ ¬m.staticLinked ∧ ¬m.header ∧ device ∧
      t = Asan ∧ sanitizerEnabled then
      { m with inSanitizerDir := true }
    else m
  let exported := if m.staticLinked ∧ m.exportedToMake ∧
      (t = Hwasan ∨ t = cfi) then some m.moduleName else none
  (m, exported)

/-- PlatformSanitizeable branch of sanitizerSplitMutator.Mutate from
cc/sanitize.go (the other branches handle apexes and snapshot modules,
which are not PlatformSanitizeable with defined sanitize properties).
Returns the mutated module state together with the name recorded into the
per-sanitizer static-libs export map, when any. -/
def mutatePlatform (t : SanitizerType) (device : Bool) (m : MutModule)
    (variationName : String) : MutModule × Option String :=
  let sanitizerVariation := variationName == t.variationName
  if m.sanitizePropDefined then
    let sanitizerEnabled := isSanitizerEnabled m.props t
    let oneMakeVariation :=
      if m.staticLinked ∨ m.header then
        ¬(t = cfi ∨ t = scs ∨ t = Hwasan)
      else if ¬m.binary then
        ¬(t = cfi ∨ t = Hwasan ∨ t = scs ∨ t = Asan)
      else False
    let m := if oneMakeVariation ∧ sanitizerEnabled ≠ sanitizerVariation then
        { m with preventInstall := true, hideFromMake := true }
      else m
    if sanitizerVariation then
      mutateSanitizedBranch t device sanitizerEnabled m
    else if sanitizerEnabled then
      ({ m with props := SetSanitizer m.props t false }, none)
    else
      (m, none)
  else
    (m, none)

/-- History of calls to sanitizerStaticLibsMap.add: each event records the
image variant, the architecture name, and the exported module name. A Go
map is represented by its insertion history; the list a nested map stores
under (image, arch) is exactly the sequence of names added for that pair,
in order. -/
abbrev LibsEvent := (String × String) × String

/-- Contents of libsMap[image][arch] after a sequence of add calls. -/
def libsAt (image arch : String) (evs : List LibsEvent) : List String :=
  (evs.filter (fun e => e.1.1 == image && e.1.2 == arch)).map (fun e => e.2)

/-- android.SortedStringKeys (helper outside src/): the distinct keys of a
map in sorted order. On the insertion-history representation the key set is
the deduplicated list of inserted keys. -/
def sortedStringKeys (l : List String) : List String :=
  l.dedup.mergeSort

/-- sanitizerStaticLibsMap.exportToMake from cc/sanitize.go: for each image
in sorted order and each arch in sorted order, emit the Make variable
SOONG_{sanitizer}_{image}_{arch}_STATIC_LIBRARIES with the sorted,
space-joined library list. -/
def exportToMake (t : SanitizerType) (evs : List LibsEvent) :
    List (String × String) :=
  (sortedStringKeys (evs.map (fun e => e.1.1))).flatMap fun image =>
    (sortedStringKeys ((evs.filter (fun e => e.1.1 == image)).map
        (fun e => e.1.2))).map fun arch =>
      ("SOONG_" ++ t.variationName ++ "_" ++ image ++ "_" ++ arch ++
          "_STATIC_LIBRARIES",
        String.intercalate " " (libsAt image arch evs).mergeSort)

/-!
Theorems checking the specification claims.
-/

/-- Minimal-runtime eligibility as the words of claim C7 read: no
address/hardware-address/fuzzer mode, some overflow/undefined-family check
enabled, and no diagnostic form of the overflow/undefined family (the
claim does not mention the cfi diagnostic). Stated for comparison with
`enableMinimalRuntime`, which is the source translation. -/
def claimedMinimalRuntimeEligible (s : SanitizeProperties) : Bool :=
  !pBool s.Sanitize.Address && !pBool s.Sanitize.Hwaddress &&
    !pBool s.Sanitize.Fuzzer &&
    (pBool s.Sanitize.Integer_overflow ||
      decide (s.Sanitize.Misc_undefined ≠ []) ||
      pBool s.Sanitize.Undefined || pBool s.Sanitize.All_undefined) &&
    !(pBool s.Sanitize.Diag.Integer_overflow ||
      pBool s.Sanitize.Diag.Undefined ||
      decide (s.Sanitize.Diag.Misc_undefined ≠ []))

/-- Properties record with only integer-overflow checking and the cfi
diagnostic enabled: a policy on which claim C7 and the code disagree. -/
def propsMinRtCx : SanitizeProperties :=
  { Sanitize := { Integer_overflow := some true, Diag := { Cfi := some true } } }

/-- C7 counterexample: a policy that satisfies every condition of the claim
(no address, hardware-address or fuzzer mode; integer-overflow checking
enabled; no diagnostic form of any overflow/undefined-family check), yet
enableMinimalRuntime rejects it, because the source also requires the cfi
diagnostic to be off. -/
theorem enableMinimalRuntime_claim_false :
    claimedMinimalRuntimeEligible propsMinRtCx = true ∧
      enableMinimalRuntime propsMinRtCx = false := by
  constructor <;> rfl

/-- C7 (amended): enableMinimalRuntime is true exactly when none of
address, hardware-address and fuzzer is enabled, at least one of
integer-overflow, misc-undefined, undefined or all-undefined checking is
enabled, and no diagnostic form of integer-overflow, cfi, undefined or the
misc-undefined list is enabled. -/
theorem enableMinimalRuntime_iff (s : SanitizeProperties) :
    enableMinimalRuntime s = true ↔
      (pBool s.Sanitize.Address = false ∧ pBool s.Sanitize.Hwaddress = false ∧
        pBool s.Sanitize.Fuzzer = false) ∧
      (pBool s.Sanitize.Integer_overflow = true ∨
        s.Sanitize.Misc_undefined ≠ [] ∨
        pBool s.Sanitize.Undefined = true ∨
        pBool s.Sanitize.All_undefined = true) ∧
      (pBool s.Sanitize.Diag.Integer_overflow = false ∧
        pBool s.Sanitize.Diag.Cfi = false ∧
        pBool s.Sanitize.Diag.Undefined = false ∧
        s.Sanitize.Diag.Misc_undefined = []) := by
  unfold enableMinimalRuntime
  simp only [Bool.if_true_left, Bool.or_false, Bool.and_eq_true,
    Bool.not_eq_true', Bool.or_eq_true, decide_eq_true_eq,
    Bool.not_eq_true, Bool.or_eq_false_iff, decide_eq_false_iff_not,
    not_lt, Nat.le_zero, List.length_eq_zero, List.length_pos]
  tauto

/-- C10: disabling a sanitizer through SetSanitizer stores a nil pointer,
so the mode is not recorded as explicitly disabled, and the
SanitizerEnabled status is untouched; enabling does set the status. -/
theorem setSanitizer_false_clears (s : SanitizeProperties)
    (t : SanitizerType) :
    getSanitizerBoolPtr (SetSanitizer s t false) t = none ∧
      isSanitizerExplicitlyDisabled (SetSanitizer s t false) t = false ∧
      (SetSanitizer s t false).SanitizerEnabled = s.SanitizerEnabled ∧
      (SetSanitizer s t true).SanitizerEnabled = true := by
  cases t <;>
    simp [SetSanitizer, getSanitizerBoolPtr, isSanitizerExplicitlyDisabled]

/-- C3 counterexample: the object-reuse dependency tag is classified as
sanitizable by IsSanitizableDependencyTag, contradicting the claim that
object-reuse edges lie outside the sanitizable subset (and likewise for
objDepTag). -/
theorem isSanitizableDependencyTag_reuseObj :
    IsSanitizableDependencyTag reuseObjTag = true ∧
      IsSanitizableDependencyTag objDepTag = true := by
  constructor <;> rfl

/-- C3 (amended): for a PlatformSanitizeable source module and any
dependency tag for which IsSanitizableDependencyTag is false,
OutgoingTransition returns the base variation for every source variation;
the object-reuse tags, however, are classified sanitizable and are not
covered by this rule. -/
theorem outgoingTransition_nonsanitizable_base (m : ModuleHandle)
    (c : PlatformSanModule) (tag : DependencyTag) (v : String)
    (hplat : m.platform = some c)
    (htag : IsSanitizableDependencyTag tag = false) :
    OutgoingTransition m tag v = "" := by
  unfold OutgoingTransition
  rw [hplat]
  simp [htag]

/-- Witness for C3 (amended) at a concrete non-sanitizable tag. -/
theorem outgoingTransition_nonsanitizable_base_witness :
    OutgoingTransition { platform := some {} }
      (DependencyTag.otherTag "apexDep") "asan" = "" :=
  outgoingTransition_nonsanitizable_base _ {} _ "asan" rfl rfl

/-- C2: a PlatformSanitizeable dependency that is neither statically linked
nor header-only, does not have the mode enabled and is not a
snapshot-sanitizer module resolves to the base variation for every mode in
the non-shared-propagating set {address, hardware-address, cfi,
shadow-call-stack}, whatever variation the consumer asked for. -/
theorem incomingTransition_shared_not_enabled_base (m : ModuleHandle)
    (d : PlatformSanModule) (t : SanitizerType) (v : String)
    (hplat : m.platform = some d)
    (ht : t = Asan ∨ t = Hwasan ∨ t = cfi ∨ t = scs)
    (hstatic : d.staticLinked = false) (hheader : d.header = false)
    (hen : d.enabled t = false) (hsnap : d.snapshotSanEnabled t = false) :
    IncomingTransition t m v = "" := by
  unfold IncomingTransition
  rw [hplat]
  simp only [hsnap]
  rw [if_neg (by simp)]
  by_cases hguard : ¬d.sanitizePropDefined ∨ d.sanitizeNever ∨
      d.explicitlyDisabled t ∨ ¬d.supported t
  · rw [if_pos hguard]
  · rw [if_neg hguard]
    by_cases hbin : d.binary = true
    · simp [hbin, hen]
    · simp only [Bool.not_eq_true] at hbin
      rw [if_neg (by simp [hbin]), if_pos (by simp [hstatic, hheader]),
        if_neg (by simp [hen]),
        if_pos (by rcases ht with rfl | rfl | rfl | rfl <;> simp)]

/-- Witness for C2 at a concrete shared library that did not request asan,
with the consumer asking for the sanitized variation. -/
theorem incomingTransition_shared_not_enabled_base_witness :
    IncomingTransition Asan { platform := some {} } "asan" = "" :=
  incomingTransition_shared_not_enabled_base _ {} Asan "asan" rfl
    (Or.inl rfl) rfl rfl rfl rfl

/-- Static vendor binary with cfi enabled: the module on which claim C1 and
Split disagree (the forced cfi vendor-snapshot rule fires for it even
though it is a binary). -/
def cfiVendorStaticBinary : PlatformSanModule :=
  { binary := true, staticLinked := true, inVendor := true,
    enabled := fun t => t = cfi }

/-- C1 counterexample: for the cfi mode enabled on a statically linked
vendor binary eligible for the vendor-snapshot rule, Split produces both
the base and the sanitized variation, not only the sanitized one as the
claim's binary clause demands. -/
theorem split_binary_claim_false :
    cfiVendorStaticBinary.enabled cfi = true ∧
      cfiVendorStaticBinary.binary = true ∧
      cfiVendorStaticBinary.sanitizePropDefined = true ∧
      Split cfi { platform := some cfiVendorStaticBinary } = ["", "cfi"] ∧
      Split cfi { platform := some cfiVendorStaticBinary } ≠
        [SanitizerType.cfi.variationName] := by
  refine ⟨rfl, rfl, rfl, rfl, ?_⟩
  decide

/-- C1 (amended): for a PlatformSanitizeable module with sanitize
properties defined, outside the forced cfi vendor-snapshot case Split
returns only base when the mode is not enabled, exactly the sanitized
variation for a binary, base plus sanitized for a (non-binary) static or
header library, and exactly the sanitized variation for a shared library;
in the forced cfi vendor-snapshot case it returns base plus sanitized even
for a binary. -/
theorem split_characterization (m : ModuleHandle) (c : PlatformSanModule)
    (t : SanitizerType) (hplat : m.platform = some c)
    (hdef : c.sanitizePropDefined = true) :
    (t = cfi → needsCfiForVendorSnapshot c = true →
      Split t m = ["", t.variationName]) ∧
    (¬(t = cfi ∧ needsCfiForVendorSnapshot c = true) →
      (c.enabled t = false → Split t m = [""]) ∧
      (c.enabled t = true → c.binary = true →
        Split t m = [t.variationName]) ∧
      (c.enabled t = true → c.binary = false →
        (c.staticLinked = true ∨ c.header = true) →
        Split t m = ["", t.variationName]) ∧
      (c.enabled t = true → c.binary = false → c.staticLinked = false →
        c.header = false → Split t m = [t.variationName])) := by
  unfold Split
  rw [hplat]
  simp only [hdef, if_true]
  unfold splitPlatform
  constructor
  · intro ht hsnap
    rw [if_pos ⟨ht, hsnap⟩]
  · intro hsnap
    rw [if_neg hsnap]
    refine ⟨fun hen => ?_, fun hen hbin => ?_, fun hen hbin hsh => ?_,
      fun hen hbin hst hh => ?_⟩
    · rw [if_pos (by simp [hen])]
    · rw [if_neg (by simp [hen]), if_pos hbin]
    · rw [if_neg (by simp [hen]), if_neg (by simp [hbin]),
        if_pos (by simpa using hsh)]
    · rw [if_neg (by simp [hen]), if_neg (by simp [hbin]),
        if_neg (by simp [hst, hh])]

/-- Plain asan-enabled binary used to witness the C1 characterization. -/
def asanBinary : PlatformSanModule :=
  { binary := true, enabled := fun _ => true }

/-- Witness for C1 (amended): an asan-enabled plain binary splits into
exactly the sanitized variation. -/
theorem split_characterization_witness :
    Split Asan { platform := some asanBinary } = ["asan"] :=
  ((split_characterization _ _ Asan rfl rfl).2 (by simp)).2.1 rfl rfl

/-- Module state on which claim C8 and the code disagree: a host module
with cfi requested, materialized in the asan variation. -/
def cfiHostModule : MutModule :=
  { props := { Sanitize := { Address := some true, Cfi := some true } } }

/-- C8 counterexample: on a host module (device false) supporting cfi and
materialized in the asan sanitized variation, Mutate leaves cfi requested,
contradicting the claim that cfi is forced off for every such module, host
or device. -/
theorem mutate_cfi_claim_false :
    cfiHostModule.supported cfi = true ∧
      cfiHostModule.sanitizePropDefined = true ∧
      SanitizerType.Asan.incompatibleWithCfi = true ∧
      (mutatePlatform Asan false cfiHostModule "asan").1.props.Sanitize.Cfi =
        some true := by
  refine ⟨rfl, rfl, rfl, ?_⟩
  rfl

/-- Helper: on a device, the sanitized-variation branch of Mutate always
ends with a nil cfi setting when the sanitizer is cfi-incompatible and the
module supports cfi. -/
theorem mutateSanitizedBranch_cfi_none (t : SanitizerType)
    (sanitizerEnabled : Bool) (m : MutModule)
    (hinc : t.incompatibleWithCfi = true)
    (hsup : m.supported cfi = true) :
    (mutateSanitizedBranch t true sanitizerEnabled m).1.props.Sanitize.Cfi =
      none := by
  unfold mutateSanitizedBranch
  dsimp only
  split
  · split <;> rfl
  · next h => exact absurd ⟨hinc, rfl, hsup⟩ h

/-- C8 (amended): for a device module implementing PlatformSanitizeable
with sanitize properties defined, materialized in the sanitized variation
of a cfi-incompatible mode (address, hardware-address, fuzzer), Mutate
forces cfi off on that copy whenever the module supports cfi; on host the
cfi setting is left as it was. -/
theorem mutate_forces_cfi_off (t : SanitizerType) (m : MutModule)
    (hinc : t.incompatibleWithCfi = true)
    (hdef : m.sanitizePropDefined = true)
    (hsup : m.supported cfi = true) :
    (mutatePlatform t true m t.variationName).1.props.Sanitize.Cfi =
      none := by
  have hvar : (t.variationName == t.variationName) = true := by simp
  unfold mutatePlatform
  simp only [hdef, if_true, hvar]
  apply mutateSanitizedBranch_cfi_none t _ _ hinc
  split <;> (try split) <;> (try split) <;> exact hsup

/-- Witness for C8 (amended): the same cfi-requesting module, mutated on a
device, ends with cfi cleared. -/
theorem mutate_forces_cfi_off_witness :
    SanitizerType.Asan.incompatibleWithCfi = true ∧
      cfiHostModule.sanitizePropDefined = true ∧
      cfiHostModule.supported cfi = true ∧
      (mutatePlatform Asan true cfiHostModule "asan").1.props.Sanitize.Cfi =
        none :=
  ⟨rfl, rfl, rfl, mutate_forces_cfi_off Asan cfiHostModule rfl rfl rfl⟩

/-- Helper: sortedStringKeys only depends on the multiset of keys. -/
theorem sortedStringKeys_perm {l1 l2 : List String} (h : l1.Perm l2) :
    sortedStringKeys l1 = sortedStringKeys l2 := by
  unfold sortedStringKeys
  exact List.eq_of_perm_of_sorted
    ((l1.dedup.mergeSort_perm _).trans (h.dedup.trans
      (l2.dedup.mergeSort_perm _).symm))
    (List.sorted_mergeSort' _) (List.sorted_mergeSort' _)

/-- Helper: sorting a list of strings only depends on its multiset. -/
theorem mergeSort_eq_of_perm {l1 l2 : List String} (h : l1.Perm l2) :
    l1.mergeSort = l2.mergeSort :=
  List.eq_of_perm_of_sorted
    ((l1.mergeSort_perm _).trans (h.trans (l2.mergeSort_perm _).symm))
    (List.sorted_mergeSort' _) (List.sorted_mergeSort' _)

/-- Helper: the per-key contents of the static-libs map are permuted when
the add events are permuted. -/
theorem libsAt_perm (image arch : String) {evs1 evs2 : List LibsEvent}
    (h : evs1.Perm evs2) :
    (libsAt image arch evs1).Perm (libsAt image arch evs2) :=
  (h.filter _).map _

/-- C9: the Make-variable export of the per-mode static-library aggregate
is deterministic: two runs whose add calls are permutations of each other
emit identical key/value pairs, because images, architectures and library
lists are all sorted before emission. -/
theorem exportToMake_deterministic (t : SanitizerType)
    (evs1 evs2 : List LibsEvent) (h : evs1.Perm evs2) :
    exportToMake t evs1 = exportToMake t evs2 := by
  unfold exportToMake
  rw [sortedStringKeys_perm (h.map _)]
  have hfun : (fun image => (sortedStringKeys
        ((evs1.filter (fun e => e.1.1 == image)).map (fun e => e.1.2))).map
        fun arch =>
          ("SOONG_" ++ t.variationName ++ "_" ++ image ++ "_" ++ arch ++
              "_STATIC_LIBRARIES",
            String.intercalate " " (libsAt image arch evs1).mergeSort)) =
      (fun image => (sortedStringKeys
        ((evs2.filter (fun e => e.1.1 == image)).map (fun e => e.1.2))).map
        fun arch =>
          ("SOONG_" ++ t.variationName ++ "_" ++ image ++ "_" ++ arch ++
              "_STATIC_LIBRARIES",
            String.intercalate " " (libsAt image arch evs2).mergeSort)) := by
    funext image
    rw [sortedStringKeys_perm ((h.filter _).map _)]
    have harch : (fun arch =>
        ("SOONG_" ++ t.variationName ++ "_" ++ image ++ "_" ++ arch ++
            "_STATIC_LIBRARIES",
          String.intercalate " " (libsAt image arch evs1).mergeSort)) =
        (fun arch =>
          ("SOONG_" ++ t.variationName ++ "_" ++ image ++ "_" ++ arch ++
              "_STATIC_LIBRARIES",
            String.intercalate " " (libsAt image arch evs2).mergeSort)) := by
      funext arch
      rw [mergeSort_eq_of_perm (libsAt_perm image arch h)]
    rw [harch]
  rw [hfun]

/-- Concrete event lists for the C9 witness (two adds in swapped order). -/
def evsW1 : List LibsEvent := [(("core", "arm"), "libbar"), (("core", "arm"), "libfoo")]

/-- The same two add events as evsW1 in the opposite order. -/
def evsW2 : List LibsEvent := [(("core", "arm"), "libfoo"), (("core", "arm"), "libbar")]

/-- Witness for C9 at two concrete permuted event histories. -/
theorem exportToMake_deterministic_witness :
    evsW1.Perm evsW2 ∧ exportToMake cfi evsW1 = exportToMake cfi evsW2 :=
  ⟨List.Perm.swap _ _ _,
    exportToMake_deterministic cfi evsW1 evsW2 (List.Perm.swap _ _ _)⟩

/-- Simp fact: a nil tri-state is not enabled. -/
@[simp] theorem pBool_none : pBool none = false := rfl

/-- Helper: for a module that does not opt out (neither NDK nor Never),
begin runs both phases and combines their results. -/
theorem begin'_eq (ctx : BeginContext) (props : SanitizeProperties)
    (hsdk : ctx.useSdk = false)
    (hnever : pBool props.Sanitize.Never = false) :
    begin' ctx props =
      ({ props with
         Sanitize := beginPhase2 ctx (beginPhase1 ctx props.Sanitize).1,
         SanitizerEnabled := props.SanitizerEnabled ||
           sanitizerEnabledCondition ctx (beginPhase1 ctx props.Sanitize).1 },
        (beginPhase1 ctx props.Sanitize).2) := by
  unfold begin'
  simp only [hsdk, Bool.false_eq_true, if_false, hnever]

/-- Invariant of claim C4: whenever address or hardware-address checking is
on, cfi and the memtag modes are unset. -/
def cfiMemtagCleared (s : SanitizeUserProps) : Prop :=
  pBool s.Address = true ∨ pBool s.Hwaddress = true →
    s.Cfi = none ∧ s.Memtag_heap = none ∧ s.Memtag_stack = none

/-- Invariant of claim C4: whenever hardware-address checking is on,
address and thread are unset. -/
def hwasanWon (s : SanitizeUserProps) : Prop :=
  pBool s.Hwaddress = true → s.Address = none ∧ s.Thread = none

theorem stepAsanWins_establishes (s : SanitizeUserProps) :
    cfiMemtagCleared (stepAsanWins s) := by
  unfold stepAsanWins
  split
  · intro _
    exact ⟨rfl, rfl, rfl⟩
  · next h =>
      intro hc
      exact absurd hc h

theorem stepNonLinux_clears (ctx : BeginContext) (s : SanitizeUserProps)
    (h : cfiMemtagCleared s) : cfiMemtagCleared (stepNonLinux ctx s) := by
  unfold stepNonLinux
  split
  · intro hc
    exact ⟨rfl, (h hc).2.1, (h hc).2.2⟩
  · exact h

theorem stepMusl_clears (ctx : BeginContext) (s : SanitizeUserProps)
    (h : cfiMemtagCleared s) : cfiMemtagCleared (stepMusl ctx s) := by
  unfold stepMusl
  split
  · intro hc
    exact ⟨rfl, (h hc).2.1, (h hc).2.2⟩
  · exact h

theorem stepVndk_clears (ctx : BeginContext) (s : SanitizeUserProps)
    (h : cfiMemtagCleared s) : cfiMemtagCleared (stepVndk ctx s) := by
  unfold stepVndk
  split
  · intro hc
    exact ⟨rfl, (h hc).2.1, (h hc).2.2⟩
  · exact h

theorem stepRamdisk_clears (ctx : BeginContext) (s : SanitizeUserProps)
    (h : cfiMemtagCleared s) : cfiMemtagCleared (stepRamdisk ctx s) := by
  unfold stepRamdisk
  split
  · intro hc
    rcases hc with hca | hch
    · exact h (Or.inl hca)
    · exact absurd hch (by simp)
  · exact h

theorem stepStaticBinary_clears (ctx : BeginContext) (s : SanitizeUserProps)
    (h : cfiMemtagCleared s) : cfiMemtagCleared (stepStaticBinary ctx s) := by
  unfold stepStaticBinary
  split
  · intro hc
    rcases hc with hca | hch
    · exact absurd hca (by simp)
    · exact h (Or.inr hch)
  · exact h

theorem stepAllUndef_clears (s : SanitizeUserProps)
    (h : cfiMemtagCleared s) : cfiMemtagCleared (stepAllUndef s) := by
  unfold stepAllUndef
  split
  · intro hc
    exact h hc
  · exact h

theorem step32Bit_clears (ctx : BeginContext) (s : SanitizeUserProps)
    (h : cfiMemtagCleared s) : cfiMemtagCleared (step32Bit ctx s) := by
  unfold step32Bit
  split
  · intro hc
    exact h hc
  · exact h

theorem stepScudoDisable_clears (ctx : BeginContext) (s : SanitizeUserProps)
    (h : cfiMemtagCleared s) : cfiMemtagCleared (stepScudoDisable ctx s) := by
  unfold stepScudoDisable
  split
  · intro hc
    exact h hc
  · exact h

theorem stepHwasanWins_clears (s : SanitizeUserProps)
    (h : cfiMemtagCleared s) : cfiMemtagCleared (stepHwasanWins s) := by
  unfold stepHwasanWins
  split
  · intro hc
    rcases hc with hca | hch
    · exact absurd hca (by simp)
    · exact h (Or.inr hch)
  · exact h

theorem stepFuzzerCfi_clears (s : SanitizeUserProps)
    (h : cfiMemtagCleared s) : cfiMemtagCleared (stepFuzzerCfi s) := by
  unfold stepFuzzerCfi
  split
  · intro hc
    exact ⟨rfl, (h hc).2.1, (h hc).2.2⟩
  · exact h

theorem stepHwasanWins_establishes (s : SanitizeUserProps) :
    hwasanWon (stepHwasanWins s) := by
  unfold stepHwasanWins
  split
  · intro _
    exact ⟨rfl, rfl⟩
  · next h =>
      intro hc
      exact absurd hc h

theorem stepFuzzerCfi_keeps_hwasanWon (s : SanitizeUserProps)
    (h : hwasanWon s) : hwasanWon (stepFuzzerCfi s) := by
  unfold stepFuzzerCfi
  split
  · intro hc
    exact h hc
  · exact h

/-- Helper: beginTail establishes the cfi/memtag exclusion invariant. -/
theorem beginTail_cfiMemtagCleared (ctx : BeginContext)
    (s : SanitizeUserProps) : cfiMemtagCleared (beginTail ctx s) :=
  step32Bit_clears ctx _ (stepAllUndef_clears _ (stepStaticBinary_clears ctx _
    (stepRamdisk_clears ctx _ (stepVndk_clears ctx _ (stepMusl_clears ctx _
      (stepNonLinux_clears ctx _ (stepAsanWins_establishes s)))))))

/-- Helper: beginPhase2 preserves the cfi/memtag exclusion invariant and
establishes the hwasan-wins invariant. -/
theorem beginPhase2_invariants (ctx : BeginContext) (s : SanitizeUserProps)
    (h : cfiMemtagCleared s) :
    cfiMemtagCleared (beginPhase2 ctx s) ∧ hwasanWon (beginPhase2 ctx s) :=
  ⟨stepFuzzerCfi_clears _ (stepHwasanWins_clears _
      (stepScudoDisable_clears ctx _ h)),
    stepFuzzerCfi_keeps_hwasanWon _ (stepHwasanWins_establishes _)⟩

/-- Properties record opting out via Never while carrying both address
modes: the input on which claim C4 and the code disagree. -/
def propsNeverBoth : SanitizeProperties :=
  { Sanitize := { Never := some true, Address := some true,
                  Hwaddress := some true } }

/-- C4 counterexample: with Never set, begin returns without error and
leaves hardware-address and address simultaneously enabled, so the claimed
invariant fails for this input policy. -/
theorem begin_mutual_exclusion_claim_false :
    (begin' {} propsNeverBoth).2 = [] ∧
      pBool (begin' {} propsNeverBoth).1.Sanitize.Hwaddress = true ∧
      pBool (begin' {} propsNeverBoth).1.Sanitize.Address = true ∧
      (begin' {} propsNeverBoth).1.Sanitize.Address ≠ none := by
  refine ⟨rfl, rfl, rfl, ?_⟩
  decide

/-- C4 (amended): for every module that does not opt out of sanitization
entirely (not NDK code, Never unset), after begin completes hardware-address
enabled implies address and thread are unset, and address or
hardware-address enabled implies cfi, memtag-heap and memtag-stack are
unset. -/
theorem begin_mutual_exclusion (ctx : BeginContext)
    (props : SanitizeProperties) (hsdk : ctx.useSdk = false)
    (hnever : pBool props.Sanitize.Never = false) :
    (pBool (begin' ctx props).1.Sanitize.Hwaddress = true →
      (begin' ctx props).1.Sanitize.Address = none ∧
        (begin' ctx props).1.Sanitize.Thread = none) ∧
    (pBool (begin' ctx props).1.Sanitize.Address = true ∨
        pBool (begin' ctx props).1.Sanitize.Hwaddress = true →
      (begin' ctx props).1.Sanitize.Cfi = none ∧
        (begin' ctx props).1.Sanitize.Memtag_heap = none ∧
        (begin' ctx props).1.Sanitize.Memtag_stack = none) := by
  rw [begin'_eq ctx props hsdk hnever]
  have hpre : cfiMemtagCleared (beginPhase1 ctx props.Sanitize).1 := by
    unfold beginPhase1
    exact beginTail_cfiMemtagCleared ctx _
  have h2 := beginPhase2_invariants ctx _ hpre
  exact ⟨h2.2, h2.1⟩

/-- Context and properties for the C4 witness: a device module with
hardware-address seeded from the global list alongside module-requested
address, thread, cfi and memtag modes. -/
def propsC4W : SanitizeProperties :=
  { Sanitize := { Address := some true, Thread := some true,
                  Hwaddress := some true, Cfi := some true,
                  Memtag_heap := some true, Memtag_stack := some true } }

/-- Witness for C4 (amended) at a concrete module: hardware-address
survives and everything it excludes is gone. -/
theorem begin_mutual_exclusion_witness :
    ({} : BeginContext).useSdk = false ∧
      pBool propsC4W.Sanitize.Never = false ∧
      ((pBool (begin' {} propsC4W).1.Sanitize.Hwaddress = true →
        (begin' {} propsC4W).1.Sanitize.Address = none ∧
          (begin' {} propsC4W).1.Sanitize.Thread = none) ∧
      (pBool (begin' {} propsC4W).1.Sanitize.Address = true ∨
          pBool (begin' {} propsC4W).1.Sanitize.Hwaddress = true →
        (begin' {} propsC4W).1.Sanitize.Cfi = none ∧
          (begin' {} propsC4W).1.Sanitize.Memtag_heap = none ∧
          (begin' {} propsC4W).1.Sanitize.Memtag_stack = none)) :=
  ⟨rfl, rfl, begin_mutual_exclusion {} propsC4W rfl rfl⟩

theorem stepScudoDisable_any (ctx : BeginContext) (s : SanitizeUserProps)
    (h : anyModeEnabled (stepScudoDisable ctx s) = true) :
    anyModeEnabled s = true := by
  unfold stepScudoDisable at h
  split at h
  · unfold anyModeEnabled at h ⊢
    simp only [pBool_none, Bool.or_eq_true, Bool.false_eq_true, false_or,
      or_false] at h ⊢
    tauto
  · exact h

theorem stepHwasanWins_any (s : SanitizeUserProps)
    (h : anyModeEnabled (stepHwasanWins s) = true) :
    anyModeEnabled s = true := by
  unfold stepHwasanWins at h
  split at h
  · unfold anyModeEnabled at h ⊢
    simp only [pBool_none, Bool.or_eq_true, Bool.false_eq_true, false_or,
      or_false] at h ⊢
    tauto
  · exact h

theorem stepFuzzerCfi_any (s : SanitizeUserProps)
    (h : anyModeEnabled (stepFuzzerCfi s) = true) :
    anyModeEnabled s = true := by
  unfold stepFuzzerCfi at h
  split at h
  · unfold anyModeEnabled at h ⊢
    simp only [pBool_none, Bool.or_eq_true, Bool.false_eq_true, false_or,
      or_false] at h ⊢
    tauto
  · exact h

/-- Context for the C5 counterexample: Scudo globally disabled, no Arm64
bionic toolchain. -/
def ctxScudoOff : BeginContext := { bionic := false, disableScudo := true }

/-- Properties requesting only Scudo heap hardening. -/
def propsScudoOnly : SanitizeProperties := { Sanitize := { Scudo := some true } }

/-- C5 counterexample: begin completes without error with SanitizerEnabled
set even though the Scudo global-disable rule subsequently cleared the last
remaining mode, so the claimed equivalence fails. -/
theorem begin_sanitizerEnabled_claim_false :
    (begin' ctxScudoOff propsScudoOnly).2 = [] ∧
      (begin' ctxScudoOff propsScudoOnly).1.SanitizerEnabled = true ∧
      anyModeEnabled (begin' ctxScudoOff propsScudoOnly).1.Sanitize =
        false := by
  refine ⟨rfl, rfl, rfl⟩

/-- C5 (amended): for a module that does not opt out, starting from an
unset status, SanitizerEnabled after begin is true exactly when the OS is
not Windows and at least one mode was enabled at the point the status is
computed — after the platform-eligibility pruning of phase one but before
the Scudo-disable, hardware-address-wins and fuzzer-clears-cfi rules;
consequently a mode surviving all pruning still implies the status on
non-Windows, but the status may remain set with no surviving mode. -/
theorem begin_sanitizerEnabled_iff (ctx : BeginContext)
    (props : SanitizeProperties) (hsdk : ctx.useSdk = false)
    (hnever : pBool props.Sanitize.Never = false)
    (hinit : props.SanitizerEnabled = false) :
    ((begin' ctx props).1.SanitizerEnabled = true ↔
      ctx.os ≠ OsType.Windows ∧
        anyModeEnabled (beginPhase1 ctx props.Sanitize).1 = true) ∧
    (anyModeEnabled (begin' ctx props).1.Sanitize = true →
      ctx.os ≠ OsType.Windows →
      (begin' ctx props).1.SanitizerEnabled = true) := by
  rw [begin'_eq ctx props hsdk hnever]
  dsimp only
  rw [hinit]
  constructor
  · simp [sanitizerEnabledCondition]
  · intro hany hos
    have h1 : anyModeEnabled (beginPhase1 ctx props.Sanitize).1 = true := by
      unfold beginPhase2 at hany
      exact stepScudoDisable_any ctx _
        (stepHwasanWins_any _ (stepFuzzerCfi_any _ hany))
    simp [sanitizerEnabledCondition, h1, hos]

/-- Properties requesting only address checking, for the C5 witness. -/
def propsAddrOnly : SanitizeProperties := { Sanitize := { Address := some true } }

/-- Witness for C5 (amended) at a concrete module requesting address
checking on a non-Windows device. -/
theorem begin_sanitizerEnabled_iff_witness :
    ({} : BeginContext).useSdk = false ∧
      pBool propsAddrOnly.Sanitize.Never = false ∧
      propsAddrOnly.SanitizerEnabled = false ∧
      (((begin' {} propsAddrOnly).1.SanitizerEnabled = true ↔
        ({} : BeginContext).os ≠ OsType.Windows ∧
          anyModeEnabled (beginPhase1 {} propsAddrOnly.Sanitize).1 = true) ∧
      (anyModeEnabled (begin' {} propsAddrOnly).1.Sanitize = true →
        ({} : BeginContext).os ≠ OsType.Windows →
        (begin' {} propsAddrOnly).1.SanitizerEnabled = true)) :=
  ⟨rfl, rfl, rfl, begin_sanitizerEnabled_iff {} propsAddrOnly rfl rfl rfl⟩

/-- Invariant threaded through the global-list block for claim C6: the
writeonly entry is still pending, no address/hwaddress entry exists, and
the module has none of Writeonly, Address, Hwaddress set. -/
def WInv (st : GState) : Prop :=
  "writeonly" ∈ st.gs ∧ "address" ∉ st.gs ∧ "hwaddress" ∉ st.gs ∧
    st.s.Writeonly = none ∧ st.s.Address = none ∧ st.s.Hwaddress = none

theorem gsUndefined_winv (st : GState) (h : WInv st) :
    WInv (gsUndefined st) := by
  obtain ⟨h1, h2, h3, h4, h5, h6⟩ := h
  unfold gsUndefined removeFromList
  dsimp only
  refine ⟨?_, ?_, ?_, ?_, ?_, ?_⟩
  · simp [List.mem_filter, h1]
  · intro hm; exact h2 (List.mem_of_mem_filter hm)
  · intro hm; exact h3 (List.mem_of_mem_filter hm)
  · split <;> exact h4
  · split <;> exact h5
  · split <;> exact h6

theorem gsDefaultUb_winv (st : GState) (h : WInv st) :
    WInv (gsDefaultUb st) := by
  obtain ⟨h1, h2, h3, h4, h5, h6⟩ := h
  unfold gsDefaultUb removeFromList
  dsimp only
  refine ⟨?_, ?_, ?_, ?_, ?_, ?_⟩
  · simp [List.mem_filter, h1]
  · intro hm; exact h2 (List.mem_of_mem_filter hm)
  · intro hm; exact h3 (List.mem_of_mem_filter hm)
  · split <;> exact h4
  · split <;> exact h5
  · split <;> exact h6

theorem gsAddress_winv (st : GState) (h : WInv st) :
    WInv (gsAddress st) := by
  obtain ⟨h1, h2, h3, h4, h5, h6⟩ := h
  unfold gsAddress removeFromList
  dsimp only
  refine ⟨?_, ?_, ?_, ?_, ?_, ?_⟩
  · simp [List.mem_filter, h1]
  · intro hm; exact h2 (List.mem_of_mem_filter hm)
  · intro hm; exact h3 (List.mem_of_mem_filter hm)
  · rw [if_neg (by simp [h2])]; exact h4
  · rw [if_neg (by simp [h2])]; exact h5
  · rw [if_neg (by simp [h2])]; exact h6

theorem gsThread_winv (st : GState) (h : WInv st) :
    WInv (gsThread st) := by
  obtain ⟨h1, h2, h3, h4, h5, h6⟩ := h
  unfold gsThread removeFromList
  dsimp only
  refine ⟨?_, ?_, ?_, ?_, ?_, ?_⟩
  · simp [List.mem_filter, h1]
  · intro hm; exact h2 (List.mem_of_mem_filter hm)
  · intro hm; exact h3 (List.mem_of_mem_filter hm)
  · split <;> exact h4
  · split <;> exact h5
  · split <;> exact h6

theorem gsFuzzer_winv (st : GState) (h : WInv st) :
    WInv (gsFuzzer st) := by
  obtain ⟨h1, h2, h3, h4, h5, h6⟩ := h
  unfold gsFuzzer removeFromList
  dsimp only
  refine ⟨?_, ?_, ?_, ?_, ?_, ?_⟩
  · simp [List.mem_filter, h1]
  · intro hm; exact h2 (List.mem_of_mem_filter hm)
  · intro hm; exact h3 (List.mem_of_mem_filter hm)
  · split <;> exact h4
  · split <;> exact h5
  · split <;> exact h6

theorem gsSafestack_winv (st : GState) (h : WInv st) :
    WInv (gsSafestack st) := by
  obtain ⟨h1, h2, h3, h4, h5, h6⟩ := h
  unfold gsSafestack removeFromList
  dsimp only
  refine ⟨?_, ?_, ?_, ?_, ?_, ?_⟩
  · simp [List.mem_filter, h1]
  · intro hm; exact h2 (List.mem_of_mem_filter hm)
  · intro hm; exact h3 (List.mem_of_mem_filter hm)
  · split <;> exact h4
  · split <;> exact h5
  · split <;> exact h6

theorem gsCfi_winv (ctx : BeginContext) (st : GState) (h : WInv st) :
    WInv (gsCfi ctx st) := by
  obtain ⟨h1, h2, h3, h4, h5, h6⟩ := h
  unfold gsCfi removeFromList
  dsimp only
  refine ⟨?_, ?_, ?_, ?_, ?_, ?_⟩
  · simp [List.mem_filter, h1]
  · intro hm; exact h2 (List.mem_of_mem_filter hm)
  · intro hm; exact h3 (List.mem_of_mem_filter hm)
  · split <;> (try split) <;> exact h4
  · split <;> (try split) <;> exact h5
  · split <;> (try split) <;> exact h6

theorem gsIntOverflow_winv (ctx : BeginContext) (st : GState) (h : WInv st) :
    WInv (gsIntOverflow ctx st) := by
  obtain ⟨h1, h2, h3, h4, h5, h6⟩ := h
  unfold gsIntOverflow removeFromList
  dsimp only
  refine ⟨?_, ?_, ?_, ?_, ?_, ?_⟩
  · simp [List.mem_filter, h1]
  · intro hm; exact h2 (List.mem_of_mem_filter hm)
  · intro hm; exact h3 (List.mem_of_mem_filter hm)
  · split <;> (try split) <;> exact h4
  · split <;> (try split) <;> exact h5
  · split <;> (try split) <;> exact h6

theorem gsScudo_winv (st : GState) (h : WInv st) :
    WInv (gsScudo st) := by
  obtain ⟨h1, h2, h3, h4, h5, h6⟩ := h
  unfold gsScudo removeFromList
  dsimp only
  refine ⟨?_, ?_, ?_, ?_, ?_, ?_⟩
  · simp [List.mem_filter, h1]
  · intro hm; exact h2 (List.mem_of_mem_filter hm)
  · intro hm; exact h3 (List.mem_of_mem_filter hm)
  · split <;> exact h4
  · split <;> exact h5
  · split <;> exact h6

theorem gsHwaddress_winv (st : GState) (h : WInv st) :
    WInv (gsHwaddress st) := by
  obtain ⟨h1, h2, h3, h4, h5, h6⟩ := h
  unfold gsHwaddress removeFromList
  dsimp only
  refine ⟨?_, ?_, ?_, ?_, ?_, ?_⟩
  · simp [List.mem_filter, h1]
  · intro hm; exact h2 (List.mem_of_mem_filter hm)
  · intro hm; exact h3 (List.mem_of_mem_filter hm)
  · rw [if_neg (by simp [h3])]; exact h4
  · rw [if_neg (by simp [h3])]; exact h5
  · rw [if_neg (by simp [h3])]; exact h6

/-- Helper: under the C6 invariant the writeonly step raises the
module-scoped error. -/
theorem gsWriteonly_err (st : GState) (h : WInv st) :
    BeginError.writeonlyRequiresAddress ∈ (gsWriteonly st).errs := by
  obtain ⟨h1, _, _, h4, h5, h6⟩ := h
  unfold gsWriteonly removeFromList
  dsimp only
  have hc : st.gs.contains "writeonly" = true := by simpa using h1
  rw [if_pos ⟨hc, h4⟩]
  dsimp only
  rw [if_pos ⟨h5, h6⟩]
  simp

theorem gsMemtagHeap_errs (ctx : BeginContext) (st : GState) :
    (gsMemtagHeap ctx st).errs = st.errs := rfl

theorem gsMemtagStack_errs (st : GState) :
    (gsMemtagStack st).errs = st.errs := rfl

theorem gsdIntOverflow_errs (ctx : BeginContext) (st : GState) :
    (gsdIntOverflow ctx st).errs = st.errs := rfl

theorem gsdCfi_errs (st : GState) : (gsdCfi st).errs = st.errs := rfl

theorem gsdMemtagHeap_errs (st : GState) :
    (gsdMemtagHeap st).errs = st.errs := rfl

theorem gsUnknown_errs_mem (st : GState) (e : BeginError)
    (h : e ∈ st.errs) : e ∈ (gsUnknown st).errs := by
  unfold gsUnknown
  split
  · exact h
  · simp [h]

theorem gsdUnknown_errs_mem (st : GState) (e : BeginError)
    (h : e ∈ st.errs) : e ∈ (gsdUnknown st).errs := by
  unfold gsdUnknown
  split
  · exact h
  · simp [h]

/-- Helper: the whole global block raises the writeonly error under the C6
invariant. -/
theorem applyGlobals_writeonly_err (ctx : BeginContext) (st : GState)
    (h : WInv st) :
    BeginError.writeonlyRequiresAddress ∈ (applyGlobals ctx st).errs := by
  unfold applyGlobals
  apply gsdUnknown_errs_mem
  rw [gsdMemtagHeap_errs, gsdCfi_errs, gsdIntOverflow_errs]
  apply gsUnknown_errs_mem
  rw [gsMemtagStack_errs, gsMemtagHeap_errs]
  apply gsWriteonly_err
  exact gsHwaddress_winv _ (gsScudo_winv _ (gsIntOverflow_winv ctx _
    (gsCfi_winv ctx _ (gsSafestack_winv _ (gsFuzzer_winv _ (gsThread_winv _
      (gsAddress_winv _ (gsDefaultUb_winv _ (gsUndefined_winv _ h)))))))))

/-- Helper: the cc_test default only touches the memtag fields. -/
theorem stepTestBinary_fields (ctx : BeginContext) (s : SanitizeUserProps) :
    (stepTestBinary ctx s).Writeonly = s.Writeonly ∧
      (stepTestBinary ctx s).Address = s.Address ∧
      (stepTestBinary ctx s).Hwaddress = s.Hwaddress := by
  unfold stepTestBinary
  dsimp only
  split <;> (try split) <;> (try split) <;> exact ⟨rfl, rfl, rfl⟩

/-- Properties declaring only the write-only modifier: the input on which
claim C6 and the code disagree. -/
def propsWriteonlyOnly : SanitizeProperties :=
  { Sanitize := { Writeonly := some true } }

/-- C6 counterexample: a module declaring write-only itself, with neither
address nor hardware-address enabled, passes begin with no error at all,
so the claimed error in the module-declared case never fires. -/
theorem begin_writeonly_claim_false :
    (begin' {} propsWriteonlyOnly).2 = [] ∧
      pBool (begin' {} propsWriteonlyOnly).1.Sanitize.Writeonly = true ∧
      (begin' {} propsWriteonlyOnly).1.Sanitize.Address = none ∧
      (begin' {} propsWriteonlyOnly).1.Sanitize.Hwaddress = none := by
  refine ⟨rfl, rfl, rfl, rfl⟩

/-- C6 (amended): the writeonly-without-address error is raised exactly by
the global-list path: for a module that does not opt out, with Writeonly,
Address and Hwaddress all unset and a global sanitizer list containing
writeonly but neither address nor hwaddress, begin reports the
writeonly-requires-address module error; a module-declared write-only
modifier alone never does. -/
theorem begin_writeonly_global_error (ctx : BeginContext)
    (props : SanitizeProperties) (hsdk : ctx.useSdk = false)
    (hnever : pBool props.Sanitize.Never = false)
    (hw : "writeonly" ∈ (globalLists ctx).1)
    (ha : "address" ∉ (globalLists ctx).1)
    (hh : "hwaddress" ∉ (globalLists ctx).1)
    (hwo : props.Sanitize.Writeonly = none)
    (haddr : props.Sanitize.Address = none)
    (hhw : props.Sanitize.Hwaddress = none) :
    BeginError.writeonlyRequiresAddress ∈ (begin' ctx props).2 := by
  rw [begin'_eq ctx props hsdk hnever]
  show BeginError.writeonlyRequiresAddress ∈ (beginPhase1 ctx props.Sanitize).2
  unfold beginPhase1 beginPre
  dsimp only
  rw [if_pos (List.length_pos.mpr (List.ne_nil_of_mem hw))]
  apply applyGlobals_writeonly_err
  obtain ⟨hf1, hf2, hf3⟩ := stepTestBinary_fields ctx props.Sanitize
  exact ⟨hw, ha, hh, by rw [hf1]; exact hwo, by rw [hf2]; exact haddr,
    by rw [hf3]; exact hhw⟩

/-- Context with writeonly in the device global sanitizer list, for the C6
witness. -/
def ctxGlobalWriteonly : BeginContext := { sanitizeDevice := ["writeonly"] }

/-- Witness for C6 (amended): the concrete global-writeonly configuration
raises the error on a module with nothing set. -/
theorem begin_writeonly_global_error_witness :
    "writeonly" ∈ (globalLists ctxGlobalWriteonly).1 ∧
      BeginError.writeonlyRequiresAddress ∈
        (begin' ctxGlobalWriteonly {}).2 :=
  ⟨by decide, begin_writeonly_global_error ctxGlobalWriteonly {} rfl rfl
    (by decide) (by decide) (by decide) rfl rfl rfl⟩

end Sanitize
